import Mathlib

/-!
Verification of the ghost-trifid autopilot decision engine against its
natural-language specification.

The definitions below are a shallow embedding of `src/lib/autopilot-core.ts`,
`src/lib/code-feature-fallback.ts` and `src/lib/ai.ts`.  External collaborators
(git, GitHub API, the Gemini wrapper `generateOptionsAction`, the Twitter
publisher `postCreativeTweet`, the Supabase audit log) are modelled by an
environment record carrying the response each call would return during the
tick; the persisted JSON state file is modelled by an explicit
`AutoPilotState` value, and a `saved` field in the tick result records the
single `saveState` write a tick may perform (none = the file is untouched).
Log strings, audit-log payloads and prompt texts are not observable by any
claim and are omitted; comments mark each omission.
-/

namespace GhostTrifid

/-! JavaScript string primitives used by the source (`toLowerCase`,
`startsWith`, `includes`, `substring(0, n)`), modelled on the character
lists underlying `String`.  The repository only ever feeds ASCII needles, for
which `Char.toLower` agrees with JS `toLowerCase`. -/

/-- Model of `s.toLowerCase()`. -/
def jsToLower (s : String) : String := ⟨s.data.map Char.toLower⟩

/-- Model of `s.startsWith(pre)`. -/
def jsStartsWith (s pre : String) : Bool := pre.data.isPrefixOf s.data

/-- Helper for `jsIncludes`: does `needle` occur contiguously in the list? -/
def listInfix (needle : List Char) : List Char → Bool
  | [] => needle.isEmpty
  | c :: rest => needle.isPrefixOf (c :: rest) || listInfix needle rest

/-- Model of `s.includes(sub)`. -/
def jsIncludes (s sub : String) : Bool := listInfix sub.data s.data

/-- Model of `s.substring(0, n)` (also `s.slice(0, n)` for nonnegative `n`). -/
def jsSubstrTo (s : String) (n : Nat) : String := ⟨s.data.take n⟩

/-! Scoring and scheduling helpers of `src/lib/autopilot-core.ts`. -/

/-- The content formats of the schedule oracle (the TS union of hook, value and thread). -/
inductive PostType
  | hook
  | value
  | thread
deriving DecidableEq, Repr

/-- Return shape of `getPostTypeForTime`. -/
structure Schedule where
  allowed : Bool
  type : PostType
  tone : String
deriving DecidableEq, Repr

/-- `calculateSignificance` (autopilot-core.ts lines 97-106): a fold over the
commit messages mirroring the `let score`/`for` loop of the source. -/
def calculateSignificance (commits : List String) : Int :=
  commits.foldl
    (fun score commit =>
      let lower := jsToLower commit
      if jsIncludes lower ("feat:") then score + 3
      else if jsIncludes lower ("perf:") then score + 2
      else if jsIncludes lower ("fix:") || jsIncludes lower ("refactor:") then score + 1
      else score)
    0

/-- `getPostTypeForTime` (autopilot-core.ts lines 108-118), as a function of
the America/Chicago wall-clock hour the source derives from `new Date()`.
The inner quotes of the first tone string are omitted. -/
def getPostTypeForTime (hour : Nat) : Schedule :=
  if 9 ≤ hour ∧ hour < 13 then
    { allowed := true, type := PostType.hook, tone := "High energy, hype, Shipping mode ON" }
  else if 11 ≤ hour ∧ hour < 16 then
    { allowed := true, type := PostType.value, tone := "Insightful, technical deep dive" }
  else if 16 ≤ hour ∧ hour < 20 then
    { allowed := true, type := PostType.thread, tone := "Reflective, summary of progress" }
  else
    { allowed := false, type := PostType.value, tone := "Neutral" }

namespace CodeFeatureFallback

/-- The `getPostTypeForTime` revision of `src/lib/code-feature-fallback.ts`
(lines 49-60): one 9am-8pm band, always the thread format. -/
def getPostTypeForTime (hour : Nat) : Schedule :=
  if 9 ≤ hour ∧ hour < 20 then
    { allowed := true, type := PostType.thread, tone := "Technical deep-dive with story progression" }
  else
    { allowed := false, type := PostType.thread, tone := "Neutral" }

end CodeFeatureFallback

/-! Data model. -/

/-- The two values of the TS monitoring-mode string union (local and
remote).  The TS literal local is a Lean keyword, hence the constructor
name `loc`. -/
inductive MonitoringMode
  | loc
  | remote
deriving DecidableEq, Repr

/-- `CodeFeature` of `src/lib/code-feature-fallback.ts` (lines 38-43). -/
structure CodeFeature where
  name : String
  description : String
  files : List String
  relevance : Int
deriving DecidableEq, Repr

/-- The persisted `AutoPilotState` (autopilot-core.ts lines 13-24), extended
with the two optional fields the code-feature fallback adds
(code-feature-fallback.ts lines 24-25).  Optional TS fields are `Option`. -/
structure AutoPilotState where
  lastCommitHash : String
  lastRunTime : Int
  isActive : Bool
  monitoredRepo : Option String := none
  monitoringMode : Option MonitoringMode := none
  postsToday : Int
  lastPostDate : String
  postedCommits : Option (List String) := none
  lastPostContent : Option String := none
  lastPostTimestamp : Option Int := none
  analyzedFeatures : Option (List CodeFeature) := none
  postedFeatures : Option (List String) := none
deriving DecidableEq, Repr

/-- Truthiness test used throughout the source to choose the remote path:
the monitoring mode equals remote and `monitoredRepo` is truthy (an absent
or empty repo identifier is falsy in JS). -/
def AutoPilotState.isRemote (s : AutoPilotState) : Bool :=
  if s.monitoringMode = some MonitoringMode.remote ∧ s.monitoredRepo.getD ("") ≠ ("") then
    true
  else
    false

/-- One commit record of the remote API or of the parsed local `git log`
output: the source reads `c.sha || c.commit?.sha` and
`c.message || c.commit?.message`, which on both shapes collapse to a sha and
a message. -/
structure Commit where
  sha : String
  message : String
deriving DecidableEq, Repr

/-- Result object of `generateOptionsAction` when it succeeds with data
(the `optionsRes.data` of autopilot-core.ts line 346). -/
structure GenOptions where
  hook : String
  value : String
  thread : List String
  imagePrompts : List String
deriving DecidableEq, Repr

/-- Responses of every external collaborator consulted during one tick.  A
field models the value the corresponding call would return; `""` models a
falsy (null) hash, `none` models a thrown or failed call. -/
structure TickEnv where
  /-- `getLatestRemoteCommitHash(owner, repo)`; `""` models a null result. -/
  latestRemoteHash : String
  /-- `getLastPostedCommit(repo)` from the audit log; `""` models null. -/
  dbLastPostedCommit : String
  /-- `getRemoteCommits(owner, repo, 10)`. -/
  remoteCommits : List Commit
  /-- `getCurrentCommitHash()`; `""` models a failed lookup. -/
  localHash : String
  /-- `getNewCommits(state.lastCommitHash)`. -/
  localNewCommits : List String
  /-- The date part of `new Date().toISOString()`. -/
  today : String
  /-- The America/Chicago wall-clock hour. -/
  chicagoHour : Nat
  /-- `Date.now()`. -/
  now : Int
  /-- `generateOptionsAction(prompt)`: `none` models `success` false or
  missing `data`. -/
  genResult : Option GenOptions
  /-- The `success` flag of `postCreativeTweet(...)`. -/
  postSuccess : Bool
  /-- `getRemoteCommits(owner, repo, 50)` for backfill. -/
  remoteHistory : List Commit
  /-- The parsed local `git log -50` history; `none` models an `execSync`
  failure. -/
  localHistory : Option (List Commit)
  /-- `analyzeRepositoryFeatures(owner, repo)`. -/
  analyzedFeatures : List CodeFeature
  /-- `getRepoFileContentRaw(owner, repo, path)` per path; `none` models a
  failed fetch. -/
  fileContent : String → Option String
  /-- The direct Gemini thread generation of `postAboutCodeFeature`
  (parsed JSON array); `none` models a throw or parse failure. -/
  directThread : Option (List String)

/-- Observable outcome of one tick: the fields of the returned object that
the claims consult, plus the single `saveState` write (if any) in `saved`.
The returned `logs`, `foundCommits`, `summary`, `details` and `type` fields
and the audit-log records are not modelled. -/
structure TickResult where
  success : Bool
  reason : Option String := none
  error : Option String := none
  message : Option String := none
  changes : Option Int := none
  posted : Bool := false
  backfilled : Bool := false
  saved : Option AutoPilotState := none
deriving DecidableEq, Repr

/-- `DAILY_POST_LIMIT` (autopilot-core.ts line 11). -/
def DAILY_POST_LIMIT : Int := 17

/-- `getAutoPilotState` (autopilot-core.ts lines 29-46): the state file is
modelled as `none` when missing, unreadable or unparseable (the catch
branch), otherwise as the parsed state. -/
def defaultAutoPilotState : AutoPilotState :=
  { lastCommitHash := ""
    lastRunTime := 0
    isActive := false
    monitoringMode := some MonitoringMode.loc
    postsToday := 0
    lastPostDate := ""
    postedCommits := some []
    lastPostContent := some ("")
    lastPostTimestamp := some 0 }

/-- Model of `getAutoPilotState`. -/
def getAutoPilotState (file : Option AutoPilotState) : AutoPilotState :=
  file.getD defaultAutoPilotState

/-! The decision engine `checkAndRunAutoPilot` and its backfill and
code-feature extensions. -/

/-- The STEP 2 noise filter predicate (autopilot-core.ts lines 217-220). -/
def survivesNoiseFilter (msg : String) : Bool :=
  let lower := jsToLower msg
  !(jsStartsWith lower ("chore:")) && !(jsStartsWith lower ("wip:")) &&
    !(jsStartsWith lower ("merge"))

/-- The golden-trigger predicate of STEP 3 (autopilot-core.ts lines 240-242). -/
def isGoldenTrigger (msg : String) : Bool :=
  jsIncludes (jsToLower msg) ("feat:") || jsIncludes (jsToLower msg) ("major:")

/-- The backfill interest filter (autopilot-core.ts lines 524-531): the noise
prefixes plus messages mentioning typo or formatting. -/
def isInterestingBackfill (message : String) : Bool :=
  let msg := jsToLower message
  !(jsStartsWith msg ("chore:")) && !(jsStartsWith msg ("wip:")) &&
    !(jsStartsWith msg ("merge")) && !(jsIncludes msg ("typo")) &&
    !(jsIncludes msg ("formatting"))

/-- The already-posted filter of backfill (autopilot-core.ts lines 507-510):
keep entries with a truthy sha that is not in `postedCommits`. -/
def backfillUnposted (historicalCommits : List Commit) (posted : List String) : List Commit :=
  historicalCommits.filter (fun c => c.sha != ("") && !(posted.contains c.sha))

/-- The commit backfill selects (autopilot-core.ts lines 507-540): filter the
history to unposted then interesting entries and take the last one — the
history is ordered newest first, so this is the oldest survivor. -/
def backfillSelect (historicalCommits : List Commit) (posted : List String) : Option Commit :=
  ((backfillUnposted historicalCommits posted).filter
    (fun c => isInterestingBackfill c.message)).getLast?

/-- The `postedCommits` cap (autopilot-core.ts lines 416-418): keep only the
last 100 entries, as `slice(-100)` does. -/
def capPostedCommits (l : List String) : List String :=
  if 100 < l.length then l.drop (l.length - 100) else l

/-- STEP 8 content selection (autopilot-core.ts lines 365-367): the hook and
value formats post one string, the thread format posts the list. -/
def selectContent (options : GenOptions) (t : PostType) : String ⊕ List String :=
  match t with
  | PostType.hook => Sum.inl options.hook
  | PostType.value => Sum.inl options.value
  | PostType.thread => Sum.inr options.thread

/-- The 200-character content preview stored for narrative continuity
(autopilot-core.ts lines 420-422).  On an empty thread the source would
throw on `contentToPost[0]`; the model totalises that corner with `""`. -/
def contentPreview (content : String ⊕ List String) : String :=
  match content with
  | Sum.inl s => jsSubstrTo s 200
  | Sum.inr parts => jsSubstrTo (parts.headD ("")) 200

/-- One extracted snippet of `postAboutCodeFeature`
(code-feature-fallback.ts lines 345-361). -/
structure CodeSnippet where
  file : String
  snippet : String
  startLine : Nat
deriving DecidableEq, Repr

/-- Snippet construction for file index `i` (code-feature-fallback.ts lines
353-358): `startLine = Math.min(i * 15, Math.max(0, lines.length - 20))`,
then 20 lines from there; `Nat` subtraction supplies the `Math.max(0, _)`. -/
def buildSnippet (i : Nat) (file content : String) : CodeSnippet :=
  let lines := content.splitOn ("\n")
  let startLine := min (i * 15) (lines.length - 20)
  { file := file
    snippet := String.intercalate ("\n") ((lines.drop startLine).take 20)
    startLine := startLine }

/-- The snippet-extraction loop over the first three feature files
(code-feature-fallback.ts lines 347-361); files whose fetch fails are
skipped. -/
def extractSnippets (fileContent : String → Option String) (files : List String) :
    List CodeSnippet :=
  (files.take 3).enum.filterMap (fun p => (fileContent p.2).map (buildSnippet p.1 p.2))

/-- Shared continuation of `postAboutCodeFeature` after a thread has been
obtained (code-feature-fallback.ts lines 431-492).  The image-prompt choice
(Mermaid flowchart versus code screenshots, lines 431-458) only shapes the
media argument of `postCreativeTweet` and is not modelled. -/
def featureFinishPost (env : TickEnv) (st : AutoPilotState) (postedF : List String)
    (feature : CodeFeature) (thread : List String) : TickResult :=
  if env.postSuccess then
    { success := true, posted := true, changes := some 1
      saved := some { st with
        postsToday := st.postsToday + 1
        lastPostDate := env.today
        postedFeatures := some (postedF ++ [feature.name])
        lastPostContent := some (jsSubstrTo (thread.headD ("")) 200)
        lastPostTimestamp := some env.now } }
  else
    { success := false, error := some ("post_failed") }

/-- `postAboutCodeFeature` (code-feature-fallback.ts lines 292-493).  The
`try` around the direct Gemini call and its `Array.isArray(thread) &&
thread.length >= 2` validation become the match on `env.directThread`; on
failure the source falls back to `generateOptionsAction`, whose response is
`env.genResult`. -/
def postAboutCodeFeature (env : TickEnv) (state : AutoPilotState) : TickResult :=
  if !state.isRemote then
    { success := false, error := some ("local_repo") }
  else
    let analyzed0 := state.analyzedFeatures.getD []
    let analyzed := if analyzed0.isEmpty then env.analyzedFeatures else analyzed0
    if analyzed.isEmpty then
      { success := false, error := some ("no_features") }
    else
      let postedF := state.postedFeatures.getD []
      let st := { state with
        analyzedFeatures := some analyzed
        postedFeatures := some postedF }
      let unpostedFeatures := analyzed.filter (fun f => !(postedF.contains f.name))
      match unpostedFeatures.head? with
      | none => { success := false, error := some ("no_more_features") }
      | some feature =>
        let schedule := CodeFeatureFallback.getPostTypeForTime env.chicagoHour
        if !schedule.allowed then
          { success := false, error := some ("outside_window") }
        else
          let codeSnippets := extractSnippets env.fileContent feature.files
          if codeSnippets.isEmpty then
            { success := false, error := some ("no_code_extracted") }
          else
            match env.directThread with
            | some t =>
              if t.length < 2 then
                match env.genResult with
                | none => { success := false, error := some ("gen_failed") }
                | some options => featureFinishPost env st postedF feature options.thread
              else
                featureFinishPost env st postedF feature t
            | none =>
              match env.genResult with
              | none => { success := false, error := some ("gen_failed") }
              | some options => featureFinishPost env st postedF feature options.thread

/-- `backfillHistoricalCommits` (autopilot-core.ts lines 474-641).  The
context summary and prompt assembly (lines 546-589) only shape the synthesis
brief and are not modelled; the synthesis response is `env.genResult`. -/
def backfillHistoricalCommits (env : TickEnv) (state : AutoPilotState) : TickResult :=
  let posted := state.postedCommits.getD []
  let st := { state with postedCommits := some posted }
  let historyOpt : Option (List Commit) :=
    if state.isRemote then some env.remoteHistory else env.localHistory
  match historyOpt with
  | none => { success := false, error := some ("no_git_history") }
  | some historicalCommits =>
    let unpostedCommits := backfillUnposted historicalCommits posted
    if unpostedCommits.isEmpty then
      postAboutCodeFeature env st
    else
      let interestingCommits :=
        unpostedCommits.filter (fun c => isInterestingBackfill c.message)
      match interestingCommits.getLast? with
      | none =>
        { success := true, changes := some 0, message := some ("No interesting backfill") }
      | some commitToPost =>
        let schedule := getPostTypeForTime env.chicagoHour
        if !schedule.allowed then
          { success := true, changes := some 0, message := some ("Outside posting hours") }
        else
          match env.genResult with
          | none => { success := false, error := some ("gen_failed") }
          | some options =>
            let contentToPost := selectContent options schedule.type
            if env.postSuccess then
              { success := true, posted := true, backfilled := true, changes := some 1
                saved := some { st with
                  lastRunTime := env.now
                  postsToday := st.postsToday + 1
                  postedCommits := some (capPostedCommits (posted ++ [commitToPost.sha]))
                  lastPostContent := some (contentPreview contentToPost)
                  lastPostTimestamp := some env.now } }
            else
              { success := false, error := some ("post_failed") }

/-- Outcome of STEP 1 of `checkAndRunAutoPilot`. -/
inductive InspectResult
  | fail (error : String)
  | ok (currentHash : String) (newCommits : List String)
deriving DecidableEq, Repr

/-- STEP 1 of `checkAndRunAutoPilot` (autopilot-core.ts lines 148-182): fetch
the head marker and, when it moved, the new change descriptions.  In remote
mode the comparison marker is the audit-log record `getLastPostedCommit`
with the local state as fallback. -/
def inspectRepo (env : TickEnv) (state : AutoPilotState) : InspectResult :=
  if state.isRemote then
    if env.latestRemoteHash = ("") then InspectResult.fail ("no_remote_git")
    else
      let currentHash := env.latestRemoteHash
      let lastHash :=
        if env.dbLastPostedCommit ≠ ("") then env.dbLastPostedCommit
        else state.lastCommitHash
      InspectResult.ok currentHash
        (if currentHash ≠ lastHash then env.remoteCommits.map Commit.message else [])
  else
    if env.localHash = ("") then InspectResult.fail ("no_git")
    else
      InspectResult.ok env.localHash
        (if env.localHash ≠ state.lastCommitHash then env.localNewCommits else [])

/-- `checkAndRunAutoPilot` (autopilot-core.ts lines 135-469).  STEP 6
(viral-tweet research) and STEP 7 (prompt assembly) only shape the synthesis
brief, and the flowchart / code-screenshot choice of STEP 8 only shapes the
media argument of `postCreativeTweet`; the synthesis and publish responses
are `env.genResult` and `env.postSuccess`. -/
def checkAndRunAutoPilot (env : TickEnv) (state : AutoPilotState) : TickResult :=
  if !state.isActive then
    { success := false, reason := some ("inactive") }
  else
    match inspectRepo env state with
    | InspectResult.fail e => { success := false, error := some e }
    | InspectResult.ok currentHash newCommits =>
      if currentHash = state.lastCommitHash ∨ newCommits = [] then
        -- No new commits: quota-day rollover, then backfill while quota remains
        -- (autopilot-core.ts lines 189-211).
        let st :=
          if state.lastPostDate ≠ env.today then
            { state with postsToday := 0, lastPostDate := env.today }
          else state
        if 0 < DAILY_POST_LIMIT - st.postsToday then
          backfillHistoricalCommits env st
        else
          { success := true, changes := some 0, message := some ("No new commits") }
      else
        -- STEP 2: noise filter.
        let importantCommits := newCommits.filter survivesNoiseFilter
        if importantCommits = [] then
          { success := true, changes := some 0, message := some ("Skipped noise commits")
            saved := some { state with lastCommitHash := currentHash } }
        else
          -- STEP 3: significance and batching.
          let score := calculateSignificance importantCommits
          let hasGoldenTrigger := importantCommits.any isGoldenTrigger
          if hasGoldenTrigger = false ∧ importantCommits.length < 3 ∧ score < 3 then
            { success := true, changes := some (importantCommits.length : Int)
              message := some ("Batching: " ++ toString importantCommits.length ++ "/3 commits") }
          else
            -- STEP 4: quota gate with day rollover.
            let st :=
              if state.lastPostDate ≠ env.today then
                { state with postsToday := 0, lastPostDate := env.today }
              else state
            if DAILY_POST_LIMIT ≤ st.postsToday then
              { success := true, message := some ("Daily limit reached") }
            else
              -- STEP 5: posting window.
              let schedule := getPostTypeForTime env.chicagoHour
              if !schedule.allowed then
                { success := true, changes := some (importantCommits.length : Int)
                  message := some ("Outside active hours.") }
              else
                -- STEP 7: content synthesis.
                match env.genResult with
                | none => { success := false, error := some ("gen_failed") }
                | some options =>
                  -- STEP 8: publish.
                  let contentToPost := selectContent options schedule.type
                  if env.postSuccess then
                    let posted := st.postedCommits.getD []
                    { success := true, posted := true
                      changes := some (importantCommits.length : Int)
                      saved := some { st with
                        lastCommitHash := currentHash
                        lastRunTime := env.now
                        postsToday := st.postsToday + 1
                        lastPostDate := env.today
                        postedCommits := some (capPostedCommits (posted ++ [currentHash]))
                        lastPostContent := some (contentPreview contentToPost)
                        lastPostTimestamp := some env.now } }
                  else
                    { success := false, error := some ("post_failed") }

/-- A state with no repository change pending, used to exercise no-op ticks:
active, local monitoring, quota fresh for the current day. -/
def noopState : AutoPilotState :=
  { lastCommitHash := "h"
    lastRunTime := 0
    isActive := true
    monitoringMode := some MonitoringMode.loc
    postsToday := 0
    lastPostDate := "2026-01-01"
    postedCommits := some [] }

/-- An environment whose head marker equals `noopState.lastCommitHash`, with
quota remaining, inside the posting window, two unposted historical commits,
and successful synthesis and publishing. -/
def noopEnv : TickEnv :=
  { latestRemoteHash := ""
    dbLastPostedCommit := ""
    remoteCommits := []
    localHash := "h"
    localNewCommits := []
    today := "2026-01-01"
    chicagoHour := 10
    now := 0
    genResult := some { hook := "H", value := "V", thread := ["T1", "T2", "T3"], imagePrompts := [] }
    postSuccess := true
    remoteHistory := []
    localHistory := some [{ sha := "a", message := "feat: second" }, { sha := "b", message := "feat: first" }]
    analyzedFeatures := []
    fileContent := fun _ => none
    directThread := none }


/-! Claim C5: the significance scorer. -/

/-- Modelled from the spec (section 4.2): the per-entry score is 3 for an
entry containing feat:, else 2 for perf:, else 1 for fix: or refactor:,
else 0, with case-insensitive substring matching.  Stated separately from
`calculateSignificance` so the code can be compared against the spec
formula. -/
def specEntryScore (msg : String) : Int :=
  let lower := jsToLower msg
  if jsIncludes lower ("feat:") then 3
  else if jsIncludes lower ("perf:") then 2
  else if jsIncludes lower ("fix:") || jsIncludes lower ("refactor:") then 1
  else 0

lemma specEntryScore_nonneg (msg : String) : 0 ≤ specEntryScore msg := by
  unfold specEntryScore
  dsimp only
  split_ifs <;> norm_num

/-- C5: `calculateSignificance` is exactly the sum of per-entry scores given
by the spec formula (3 for feat:, 2 for perf:, 1 for fix: or refactor:,
else 0, case-insensitive substring matching), and the result is a
nonnegative integer; being a plain function of the entry list, the same
input always yields the same score. -/
theorem calculateSignificance_spec (commits : List String) :
    calculateSignificance commits = (commits.map specEntryScore).sum ∧
      0 ≤ calculateSignificance commits := by
  have hstep : ∀ (a : Int) (c : String),
      (fun score commit =>
        let lower := jsToLower commit
        if jsIncludes lower ("feat:") then score + 3
        else if jsIncludes lower ("perf:") then score + 2
        else if jsIncludes lower ("fix:") || jsIncludes lower ("refactor:") then score + 1
        else score) a c = a + specEntryScore c := by
    intro a c
    unfold specEntryScore
    dsimp only
    split_ifs <;> ring
  have key : ∀ (l : List String) (a : Int),
      l.foldl (fun score commit =>
        let lower := jsToLower commit
        if jsIncludes lower ("feat:") then score + 3
        else if jsIncludes lower ("perf:") then score + 2
        else if jsIncludes lower ("fix:") || jsIncludes lower ("refactor:") then score + 1
        else score) a = a + (l.map specEntryScore).sum := by
    intro l
    induction l with
    | nil => intro a; simp
    | cons c t ih =>
      intro a
      rw [List.foldl_cons, List.map_cons, List.sum_cons, ih]
      have h2 : (let lower := jsToLower c;
          if jsIncludes lower ("feat:") then a + 3
          else if jsIncludes lower ("perf:") then a + 2
          else if jsIncludes lower ("fix:") || jsIncludes lower ("refactor:") then a + 1
          else a) = a + specEntryScore c := hstep a c
      rw [h2]
      ring
  have hmain : calculateSignificance commits = (commits.map specEntryScore).sum := by
    unfold calculateSignificance
    rw [key]
    ring
  refine ⟨hmain, ?_⟩
  rw [hmain]
  refine List.sum_nonneg ?_
  intro x hx
  rcases List.mem_map.mp hx with ⟨m, _, rfl⟩
  exact specEntryScore_nonneg m

/-! Claim C7: the schedule oracle. -/

/-- C7: the schedule oracle is a total function of the Chicago wall-clock
hour; an hour inside the three bands is allowed and receives exactly one
format (the first matching band wins on the 11-13 overlap: hook for 9-12,
value for 13-15, thread for 16-19), any other hour is disallowed; the
code-feature-fallback revision allows 9-19 and always picks the thread
format. -/
theorem getPostTypeForTime_bands (hour : Nat) :
    ((9 ≤ hour ∧ hour < 13) ∨ (11 ≤ hour ∧ hour < 16) ∨ (16 ≤ hour ∧ hour < 20) ↔
      (getPostTypeForTime hour).allowed = true) ∧
    (9 ≤ hour ∧ hour < 13 → (getPostTypeForTime hour).type = PostType.hook) ∧
    (13 ≤ hour ∧ hour < 16 → (getPostTypeForTime hour).type = PostType.value) ∧
    (16 ≤ hour ∧ hour < 20 → (getPostTypeForTime hour).type = PostType.thread) ∧
    (∃! t : PostType, (getPostTypeForTime hour).type = t) ∧
    ((9 ≤ hour ∧ hour < 20) ↔ (CodeFeatureFallback.getPostTypeForTime hour).allowed = true) ∧
    (CodeFeatureFallback.getPostTypeForTime hour).type = PostType.thread := by
  have ecfOn : 9 ≤ hour → hour < 20 → CodeFeatureFallback.getPostTypeForTime hour =
      { allowed := true, type := PostType.thread
        tone := "Technical deep-dive with story progression" } := by
    intro a b
    unfold CodeFeatureFallback.getPostTypeForTime
    rw [if_pos ⟨a, b⟩]
  have ecfOff : ¬(9 ≤ hour ∧ hour < 20) → CodeFeatureFallback.getPostTypeForTime hour =
      { allowed := false, type := PostType.thread, tone := "Neutral" } := by
    intro hc
    unfold CodeFeatureFallback.getPostTypeForTime
    rw [if_neg hc]
  by_cases c1 : 9 ≤ hour ∧ hour < 13
  · have e1 : getPostTypeForTime hour =
        { allowed := true, type := PostType.hook, tone := "High energy, hype, Shipping mode ON" } := by
      unfold getPostTypeForTime
      rw [if_pos c1]
    rw [e1, ecfOn (by omega) (by omega)]
    refine ⟨?_, ?_, ?_, ?_, ⟨_, rfl, fun y hy => hy.symm⟩, ?_, rfl⟩ <;> simp <;> omega
  · by_cases c2 : 13 ≤ hour ∧ hour < 16
    · have e1 : getPostTypeForTime hour =
          { allowed := true, type := PostType.value, tone := "Insightful, technical deep dive" } := by
        unfold getPostTypeForTime
        rw [if_neg c1, if_pos (by omega)]
      rw [e1, ecfOn (by omega) (by omega)]
      refine ⟨?_, ?_, ?_, ?_, ⟨_, rfl, fun y hy => hy.symm⟩, ?_, rfl⟩ <;> simp <;> omega
    · by_cases c3 : 16 ≤ hour ∧ hour < 20
      · have e1 : getPostTypeForTime hour =
            { allowed := true, type := PostType.thread, tone := "Reflective, summary of progress" } := by
          unfold getPostTypeForTime
          rw [if_neg c1, if_neg (by omega), if_pos (by omega)]
        rw [e1, ecfOn (by omega) (by omega)]
        refine ⟨?_, ?_, ?_, ?_, ⟨_, rfl, fun y hy => hy.symm⟩, ?_, rfl⟩ <;> simp <;> omega
      · have e1 : getPostTypeForTime hour =
            { allowed := false, type := PostType.value, tone := "Neutral" } := by
          unfold getPostTypeForTime
          rw [if_neg c1, if_neg (by omega), if_neg (by omega)]
        rw [e1, ecfOff (by omega)]
        refine ⟨?_, ?_, ?_, ?_, ⟨_, rfl, fun y hy => hy.symm⟩, ?_, rfl⟩ <;> simp <;> omega

/-- Witness for C7 at hour 11 (inside the overlapping bands) and hour 8. -/
theorem getPostTypeForTime_bands_witness :
    (getPostTypeForTime 11).allowed = true ∧ (getPostTypeForTime 11).type = PostType.hook ∧
      (getPostTypeForTime 8).allowed = false :=
  ⟨(getPostTypeForTime_bands 11).1.mp (Or.inl (by omega)),
   (getPostTypeForTime_bands 11).2.1 (by omega),
   by
    have hb := (getPostTypeForTime_bands 8).1
    rcases hq : (getPostTypeForTime 8).allowed with _ | _
    · rfl
    · exact absurd (hb.mpr hq) (by omega)⟩

/-! Structural lemmas about the failure paths, shared by several claims. -/

lemma featureFinishPost_props (env : TickEnv) (st : AutoPilotState) (postedF : List String)
    (feature : CodeFeature) (thread : List String) :
    (featureFinishPost env st postedF feature thread).error ≠ some ("gen_failed") ∧
    ((featureFinishPost env st postedF feature thread).error = some ("post_failed") →
      env.postSuccess = false ∧
        (featureFinishPost env st postedF feature thread).success = false ∧
        (featureFinishPost env st postedF feature thread).saved = none) ∧
    ((featureFinishPost env st postedF feature thread).posted = false →
      (featureFinishPost env st postedF feature thread).saved = none) := by
  unfold featureFinishPost
  cases hp : env.postSuccess <;> simp

lemma postAboutCodeFeature_props (env : TickEnv) (state : AutoPilotState) :
    ((postAboutCodeFeature env state).error = some ("gen_failed") → env.genResult = none) ∧
    ((postAboutCodeFeature env state).error = some ("gen_failed") ∨
        (postAboutCodeFeature env state).error = some ("post_failed") →
      (postAboutCodeFeature env state).success = false ∧
        (postAboutCodeFeature env state).saved = none) ∧
    ((postAboutCodeFeature env state).error = some ("post_failed") → env.postSuccess = false) ∧
    ((postAboutCodeFeature env state).posted = false →
      (postAboutCodeFeature env state).saved = none) := by
  unfold postAboutCodeFeature
  dsimp only
  repeat' split
  all_goals
    first
      | exact ⟨fun hg => absurd hg (featureFinishPost_props _ _ _ _ _).1,
          fun hq => by
            rcases hq with hq | hq
            · exact absurd hq (featureFinishPost_props _ _ _ _ _).1
            · exact ((featureFinishPost_props _ _ _ _ _).2.1 hq).2,
          fun hq => ((featureFinishPost_props _ _ _ _ _).2.1 hq).1,
          (featureFinishPost_props _ _ _ _ _).2.2⟩
      | (refine ⟨fun hg => ?_, fun hq => ?_, fun hq => ?_, fun hq => ?_⟩ <;> simp_all)

lemma backfillHistoricalCommits_props (env : TickEnv) (state : AutoPilotState) :
    ((backfillHistoricalCommits env state).error = some ("gen_failed") → env.genResult = none) ∧
    ((backfillHistoricalCommits env state).error = some ("gen_failed") ∨
        (backfillHistoricalCommits env state).error = some ("post_failed") →
      (backfillHistoricalCommits env state).success = false ∧
        (backfillHistoricalCommits env state).saved = none) ∧
    ((backfillHistoricalCommits env state).error = some ("post_failed") →
      env.postSuccess = false) ∧
    ((backfillHistoricalCommits env state).posted = false →
      (backfillHistoricalCommits env state).saved = none) := by
  unfold backfillHistoricalCommits
  dsimp only
  repeat' split
  all_goals
    first
      | exact ⟨(postAboutCodeFeature_props _ _).1, (postAboutCodeFeature_props _ _).2.1,
          (postAboutCodeFeature_props _ _).2.2.1, (postAboutCodeFeature_props _ _).2.2.2⟩
      | (refine ⟨fun hg => ?_, fun hq => ?_, fun hq => ?_, fun hq => ?_⟩ <;> simp_all)

lemma inspectRepo_fail_cases (env : TickEnv) (state : AutoPilotState) (e : String)
    (h : inspectRepo env state = InspectResult.fail e) :
    e = ("no_remote_git") ∨ e = ("no_git") := by
  unfold inspectRepo at h
  split at h <;> split at h <;> first
    | (injection h with h2; exact Or.inl h2.symm)
    | (injection h with h2; exact Or.inr h2.symm)
    | cases h

/-! Claim C1: synthesis or publish failures report the dedicated reason and
persist nothing. -/

/-- C1: whenever a tick reports `gen_failed` the synthesizer indeed returned
no usable data, whenever it reports `post_failed` the publisher indeed
failed, and in both cases the tick returns success false and performs no
`saveState` write — `lastCommitHash`, `postsToday` and `postedCommits` keep
their persisted values, so the same pending content is retried later. -/
theorem tick_failure_no_persist (env : TickEnv) (state : AutoPilotState) :
    ((checkAndRunAutoPilot env state).error = some ("gen_failed") →
      env.genResult = none ∧ (checkAndRunAutoPilot env state).success = false ∧
        (checkAndRunAutoPilot env state).saved = none) ∧
    ((checkAndRunAutoPilot env state).error = some ("post_failed") →
      env.postSuccess = false ∧ (checkAndRunAutoPilot env state).success = false ∧
        (checkAndRunAutoPilot env state).saved = none) := by
  unfold checkAndRunAutoPilot
  dsimp only
  split
  · -- engine disabled: no error field is set
    simp
  · split
    · -- STEP 1 failure: the reason is no_remote_git or no_git, never a
      -- synthesis or publish reason
      next e heq =>
        rcases inspectRepo_fail_cases env state e heq with h | h <;> subst h <;> simp
    · repeat' split
      all_goals first
        | exact ⟨fun hg =>
              ⟨(backfillHistoricalCommits_props env _).1 hg,
               ((backfillHistoricalCommits_props env _).2.1 (Or.inl hg)).1,
               ((backfillHistoricalCommits_props env _).2.1 (Or.inl hg)).2⟩,
            fun hq =>
              ⟨(backfillHistoricalCommits_props env _).2.2.1 hq,
               ((backfillHistoricalCommits_props env _).2.1 (Or.inr hq)).1,
               ((backfillHistoricalCommits_props env _).2.1 (Or.inr hq)).2⟩⟩
        | (refine ⟨fun hg => ?_, fun hq => ?_⟩ <;> simp_all)

/-- Inputs for the C1 witness: active local engine, head moved, one feature
commit pending, quota fresh, inside the posting window, synthesis fails. -/
def c1State : AutoPilotState :=
  { lastCommitHash := "h1"
    lastRunTime := 0
    isActive := true
    monitoringMode := some MonitoringMode.loc
    postsToday := 0
    lastPostDate := "2026-01-01"
    postedCommits := some [] }

/-- Environment for the C1 witness. -/
def c1Env : TickEnv :=
  { latestRemoteHash := ""
    dbLastPostedCommit := ""
    remoteCommits := []
    localHash := "h2"
    localNewCommits := ["feat: add dark mode"]
    today := "2026-01-01"
    chicagoHour := 10
    now := 0
    genResult := none
    postSuccess := false
    remoteHistory := []
    localHistory := none
    analyzedFeatures := []
    fileContent := fun _ => none
    directThread := none }

/-- Witness for C1: a concrete tick whose synthesis fails reports
`gen_failed` and persists nothing. -/
theorem tick_failure_no_persist_witness :
    (checkAndRunAutoPilot c1Env c1State).error = some ("gen_failed") ∧
      (checkAndRunAutoPilot c1Env c1State).success = false ∧
      (checkAndRunAutoPilot c1Env c1State).saved = none :=
  ⟨by decide,
   ((tick_failure_no_persist c1Env c1State).1 (by decide)).2.1,
   ((tick_failure_no_persist c1Env c1State).1 (by decide)).2.2⟩

/-! Claim C2: noise-only batches advance and persist the marker without any
publishing or quota use. -/

/-- C2: when the head moved and every new change description fails the noise
filter, the tick succeeds with the skipped-noise message, publishes nothing,
and the one `saveState` write is the old state with only `lastCommitHash`
advanced to the current head — `postsToday` and `postedCommits` unchanged. -/
theorem noise_only_advances_marker (env : TickEnv) (state : AutoPilotState)
    (h : String) (cs : List String)
    (ha : state.isActive = true)
    (hi : inspectRepo env state = InspectResult.ok h cs)
    (hne : h ≠ state.lastCommitHash)
    (hcs : cs ≠ [])
    (hnoise : ∀ m ∈ cs, survivesNoiseFilter m = false) :
    checkAndRunAutoPilot env state =
      { success := true, changes := some 0, message := some ("Skipped noise commits")
        saved := some { state with lastCommitHash := h } } := by
  have hfilter : cs.filter survivesNoiseFilter = [] := by
    rw [List.filter_eq_nil_iff]
    intro a ha2
    simp [hnoise a ha2]
  unfold checkAndRunAutoPilot
  rw [if_neg (by rw [ha]; decide)]
  simp only [hi]
  rw [if_neg (show ¬(h = state.lastCommitHash ∨ cs = []) from fun hor => hor.elim hne hcs)]
  rw [if_pos hfilter]

/-- Inputs for the C2 witness: Scenario A of the spec. -/
def c2State : AutoPilotState :=
  { lastCommitHash := "h1"
    lastRunTime := 0
    isActive := true
    monitoringMode := some MonitoringMode.loc
    postsToday := 0
    lastPostDate := "2026-01-01"
    postedCommits := some [] }

/-- Environment for the C2 witness. -/
def c2Env : TickEnv :=
  { latestRemoteHash := ""
    dbLastPostedCommit := ""
    remoteCommits := []
    localHash := "h2"
    localNewCommits := ["chore: bump deps"]
    today := "2026-01-01"
    chicagoHour := 10
    now := 0
    genResult := none
    postSuccess := false
    remoteHistory := []
    localHistory := none
    analyzedFeatures := []
    fileContent := fun _ => none
    directThread := none }

/-- Witness for C2 at Scenario A: a single chore commit is skipped and the
marker advances. -/
theorem noise_only_advances_marker_witness :
    checkAndRunAutoPilot c2Env c2State =
      { success := true, changes := some 0, message := some ("Skipped noise commits")
        saved := some { c2State with lastCommitHash := "h2" } } :=
  noise_only_advances_marker c2Env c2State ("h2") ["chore: bump deps"]
    (by decide) (by decide) (by decide) (by decide) (by decide)

/-! Claim C3: sub-threshold batches change nothing. -/

/-- C3: when the survivors of the noise filter carry no golden trigger,
number fewer than three and score below three, the tick reports batching
and performs no `saveState` write — every `EngineState` field keeps its
persisted value, so the same entries are reconsidered next tick. -/
theorem batching_no_side_effects (env : TickEnv) (state : AutoPilotState)
    (h : String) (cs : List String)
    (ha : state.isActive = true)
    (hi : inspectRepo env state = InspectResult.ok h cs)
    (hne : h ≠ state.lastCommitHash)
    (hcs : cs ≠ [])
    (hsurv : cs.filter survivesNoiseFilter ≠ [])
    (hgold : (cs.filter survivesNoiseFilter).any isGoldenTrigger = false)
    (hcount : (cs.filter survivesNoiseFilter).length < 3)
    (hscore : calculateSignificance (cs.filter survivesNoiseFilter) < 3) :
    checkAndRunAutoPilot env state =
      { success := true, changes := some ((cs.filter survivesNoiseFilter).length : Int)
        message := some ("Batching: " ++ toString (cs.filter survivesNoiseFilter).length
          ++ "/3 commits") } := by
  unfold checkAndRunAutoPilot
  rw [if_neg (by rw [ha]; decide)]
  simp only [hi]
  rw [if_neg (show ¬(h = state.lastCommitHash ∨ cs = []) from fun hor => hor.elim hne hcs)]
  rw [if_neg hsurv]
  rw [if_pos (show (cs.filter survivesNoiseFilter).any isGoldenTrigger = false ∧
    (cs.filter survivesNoiseFilter).length < 3 ∧
    calculateSignificance (cs.filter survivesNoiseFilter) < 3 from ⟨hgold, hcount, hscore⟩)]

/-- State for the C3 witness. -/
def c3State : AutoPilotState :=
  { lastCommitHash := "h1"
    lastRunTime := 0
    isActive := true
    monitoringMode := some MonitoringMode.loc
    postsToday := 0
    lastPostDate := "2026-01-01"
    postedCommits := some [] }

/-- Environment for the C3 witness (Scenario B entries). -/
def c3Env : TickEnv :=
  { latestRemoteHash := ""
    dbLastPostedCommit := ""
    remoteCommits := []
    localHash := "h2"
    localNewCommits := ["fix: null pointer", "docs: typo"]
    today := "2026-01-01"
    chicagoHour := 10
    now := 0
    genResult := none
    postSuccess := false
    remoteHistory := []
    localHistory := none
    analyzedFeatures := []
    fileContent := fun _ => none
    directThread := none }

/-- Witness for C3 at the Scenario B entries: score 1, no golden trigger,
fewer than three survivors, hence batching with no write. -/
theorem batching_no_side_effects_witness :
    checkAndRunAutoPilot c3Env c3State =
      { success := true, changes := some 2
        message := some ("Batching: 2/3 commits") } :=
  batching_no_side_effects c3Env c3State ("h2") ["fix: null pointer", "docs: typo"]
    (by decide) (by decide) (by decide) (by decide) (by decide) (by decide)
    (by decide) (by decide)

/-! Claim C4: the quota gate. -/

/-- C4: with an otherwise-eligible batch but `postsToday` at the daily limit
for the current quota day, the tick stops with the rate-limited outcome,
performs no `saveState` write, and its result does not depend on the
synthesizer or publisher responses — neither is consulted. -/
theorem quota_gate_rate_limited (env : TickEnv) (state : AutoPilotState)
    (h : String) (cs : List String)
    (ha : state.isActive = true)
    (hi : inspectRepo env state = InspectResult.ok h cs)
    (hne : h ≠ state.lastCommitHash)
    (hcs : cs ≠ [])
    (hsurv : cs.filter survivesNoiseFilter ≠ [])
    (helig : ¬((cs.filter survivesNoiseFilter).any isGoldenTrigger = false ∧
      (cs.filter survivesNoiseFilter).length < 3 ∧
      calculateSignificance (cs.filter survivesNoiseFilter) < 3))
    (hdate : state.lastPostDate = env.today)
    (hquota : DAILY_POST_LIMIT ≤ state.postsToday) :
    checkAndRunAutoPilot env state =
      { success := true, message := some ("Daily limit reached") } ∧
    ∀ (g : Option GenOptions) (p : Bool),
      checkAndRunAutoPilot { env with genResult := g, postSuccess := p } state =
        checkAndRunAutoPilot env state := by
  have key : ∀ (g : Option GenOptions) (p : Bool),
      checkAndRunAutoPilot { env with genResult := g, postSuccess := p } state =
        { success := true, message := some ("Daily limit reached") } := by
    intro g p
    have hi2 : inspectRepo { env with genResult := g, postSuccess := p } state =
        InspectResult.ok h cs := hi
    unfold checkAndRunAutoPilot
    rw [if_neg (by rw [ha]; decide)]
    simp only [hi2]
    rw [if_neg (show ¬(h = state.lastCommitHash ∨ cs = []) from fun hor => hor.elim hne hcs)]
    rw [if_neg hsurv, if_neg helig]
    rw [if_neg (show ¬(state.lastPostDate ≠ env.today) from by simp [hdate])]
    rw [if_pos hquota]
  have hmain : checkAndRunAutoPilot env state =
      { success := true, message := some ("Daily limit reached") } :=
    key env.genResult env.postSuccess
  exact ⟨hmain, fun g p => (key g p).trans hmain.symm⟩

/-- Environment for the C4 witness. -/
def c4Env : TickEnv :=
  { latestRemoteHash := ""
    dbLastPostedCommit := ""
    remoteCommits := []
    localHash := "h2"
    localNewCommits := ["feat: add dark mode"]
    today := "2026-01-01"
    chicagoHour := 10
    now := 0
    genResult := some { hook := "H", value := "V", thread := ["T1", "T2", "T3"], imagePrompts := [] }
    postSuccess := true
    remoteHistory := []
    localHistory := none
    analyzedFeatures := []
    fileContent := fun _ => none
    directThread := none }

/-- State for the C4 witness: quota exhausted for the current day. -/
def c4State : AutoPilotState :=
  { lastCommitHash := "h1"
    lastRunTime := 0
    isActive := true
    monitoringMode := some MonitoringMode.loc
    postsToday := 17
    lastPostDate := "2026-01-01"
    postedCommits := some [] }

/-- Witness for C4: an eligible feature batch at the daily limit is rate
limited with no write. -/
theorem quota_gate_rate_limited_witness :
    checkAndRunAutoPilot c4Env c4State =
      { success := true, message := some ("Daily limit reached") } :=
  (quota_gate_rate_limited c4Env c4State ("h2") ["feat: add dark mode"]
    (by decide) (by decide) (by decide) (by decide) (by decide) (by decide)
    (by decide) (by decide)).1

/-! Claim C8: idempotence of no-op ticks. -/

/-- Counterexample to C8 as stated: with the head marker equal to
`lastCommitHash` and identical quota and window conditions, two consecutive
ticks from `noopState` under `noopEnv` produce two different persisted
states — backfill publishes a historical commit on each tick, so
`postsToday` and `postedCommits` drift. -/
theorem noop_tick_drift_counterexample :
    noopEnv.localHash = noopState.lastCommitHash ∧
    (checkAndRunAutoPilot noopEnv noopState).saved.getD noopState ≠ noopState ∧
    ((checkAndRunAutoPilot noopEnv
        ((checkAndRunAutoPilot noopEnv noopState).saved.getD noopState)).saved.getD
          ((checkAndRunAutoPilot noopEnv noopState).saved.getD noopState)) ≠
      (checkAndRunAutoPilot noopEnv noopState).saved.getD noopState := by
  decide

/-- C8 amended: a tick that sees no repository change and does not publish
(backfill and the code-feature fallback found nothing to post, or quota or
window blocked them) performs no `saveState` write, so running it twice
yields the same `EngineState` both times; the drift counterexample shows the
restriction to non-publishing ticks is necessary, since backfill may publish
from history on a tick with no repository change. -/
theorem noop_tick_no_publish_idempotent (env : TickEnv) (state : AutoPilotState)
    (h : String) (cs : List String)
    (hi : inspectRepo env state = InspectResult.ok h cs)
    (hh : h = state.lastCommitHash)
    (hp : (checkAndRunAutoPilot env state).posted = false) :
    (checkAndRunAutoPilot env state).saved = none ∧
      checkAndRunAutoPilot env ((checkAndRunAutoPilot env state).saved.getD state) =
        checkAndRunAutoPilot env state := by
  have key : (checkAndRunAutoPilot env state).saved = none := by
    by_cases ha : state.isActive = true
    · have hred : checkAndRunAutoPilot env state =
          (if 0 < DAILY_POST_LIMIT - (if state.lastPostDate ≠ env.today then
              { state with postsToday := 0, lastPostDate := env.today }
            else state).postsToday then
            backfillHistoricalCommits env (if state.lastPostDate ≠ env.today then
              { state with postsToday := 0, lastPostDate := env.today }
            else state)
          else { success := true, changes := some 0, message := some ("No new commits") }) := by
        unfold checkAndRunAutoPilot
        rw [if_neg (by rw [ha]; decide)]
        simp only [hi]
        rw [if_pos (show h = state.lastCommitHash ∨ cs = [] from Or.inl hh)]
      rw [hred] at hp ⊢
      by_cases hq : 0 < DAILY_POST_LIMIT - (if state.lastPostDate ≠ env.today then
          { state with postsToday := 0, lastPostDate := env.today }
        else state).postsToday
      · rw [if_pos hq] at hp ⊢
        exact (backfillHistoricalCommits_props env _).2.2.2 hp
      · rw [if_neg hq]
    · have hb : state.isActive = false := by
        cases hbb : state.isActive
        · rfl
        · exact absurd hbb ha
      have hred : checkAndRunAutoPilot env state =
          { success := false, reason := some ("inactive") } := by
        unfold checkAndRunAutoPilot
        rw [if_pos (by rw [hb]; rfl)]
      rw [hred]
  exact ⟨key, by rw [key]; rfl⟩

/-- State for the C8 witness: no repository change and quota exhausted for
the current day, so the tick publishes nothing. -/
def c8State : AutoPilotState :=
  { lastCommitHash := "h"
    lastRunTime := 0
    isActive := true
    monitoringMode := some MonitoringMode.loc
    postsToday := 17
    lastPostDate := "2026-01-01"
    postedCommits := some [] }

/-- Environment for the C8 witness. -/
def c8Env : TickEnv :=
  { latestRemoteHash := ""
    dbLastPostedCommit := ""
    remoteCommits := []
    localHash := "h"
    localNewCommits := []
    today := "2026-01-01"
    chicagoHour := 10
    now := 0
    genResult := none
    postSuccess := false
    remoteHistory := []
    localHistory := none
    analyzedFeatures := []
    fileContent := fun _ => none
    directThread := none }

/-- Witness for the amended C8: a quota-exhausted no-change tick writes
nothing and repeating it reproduces the same outcome. -/
theorem noop_tick_no_publish_idempotent_witness :
    (checkAndRunAutoPilot c8Env c8State).saved = none ∧
      checkAndRunAutoPilot c8Env ((checkAndRunAutoPilot c8Env c8State).saved.getD c8State) =
        checkAndRunAutoPilot c8Env c8State :=
  noop_tick_no_publish_idempotent c8Env c8State ("h") [] (by decide) (by decide) (by decide)

/-! Claim C6: backfill selection order. -/

/-- Modelled from the claim wording for comparison with `backfillSelect`:
the oldest (last in the newest-first history) entry that is not in
`postedCommits` and is not noise by the noise rule of the spec (the
chore:, wip:, merge prefixes checked by `survivesNoiseFilter`). -/
def claimOldestUnposted (hist : List Commit) (posted : List String) : Option Commit :=
  (hist.filter (fun c => !(posted.contains c.sha) && survivesNoiseFilter c.message)).getLast?

lemma filter_filter_fused {α : Type} (p q : α → Bool) (l : List α) :
    (l.filter q).filter p = l.filter (fun a => q a && p a) := by
  induction l with
  | nil => rfl
  | cons x t ih => cases hq : q x <;> cases hp : p x <;> simp [List.filter_cons, hq, hp, ih]

lemma getLast?_eq_append {α : Type} (l : List α) (c : α) (h : l.getLast? = some c) :
    ∃ t, l = t ++ [c] := by
  induction l with
  | nil => cases h
  | cons x t ih =>
    cases t with
    | nil =>
      refine ⟨[], ?_⟩
      simp only [List.getLast?_singleton, Option.some.injEq] at h
      rw [h]
      rfl
    | cons y u =>
      rw [List.getLast?_cons_cons] at h
      rcases ih h with ⟨t2, ht2⟩
      exact ⟨x :: t2, by rw [List.cons_append, ← ht2]⟩

/-- Counterexample to C6 as stated: in the newest-first history
`[(a, feat: x), (b, fix typo)]` with nothing posted yet, the entry
`(b, fix typo)` is unposted and is not noise under the noise rule of the
spec, and it is the oldest such entry — yet backfill selects the newer
`(a, feat: x)`, because its interest filter additionally drops messages
containing typo or formatting. -/
theorem backfill_oldest_counterexample :
    backfillSelect [⟨"a", "feat: x"⟩, ⟨"b", "fix typo"⟩] [] = some ⟨"a", "feat: x"⟩ ∧
    claimOldestUnposted [⟨"a", "feat: x"⟩, ⟨"b", "fix typo"⟩] [] = some ⟨"b", "fix typo"⟩ ∧
    survivesNoiseFilter ("fix typo") = true ∧
    ([] : List String).contains ("b") = false := by
  decide

/-- C6 amended: backfill selects the oldest (last in the newest-first
window) entry that has a truthy sha, is not in `postedCommits`, and passes
the backfill interest filter — which drops the noise prefixes and also any
message containing typo or formatting; every other qualifying entry sits
strictly earlier (newer) in the filtered window, so a newer entry is never
chosen. -/
theorem backfill_selects_oldest (hist : List Commit) (posted : List String) :
    backfillSelect hist posted =
      (hist.filter (fun c => (c.sha != ("") && !(posted.contains c.sha)) &&
        isInterestingBackfill c.message)).getLast? ∧
    ∀ c, backfillSelect hist posted = some c →
      ((c.sha != ("") && !(posted.contains c.sha)) && isInterestingBackfill c.message) = true ∧
      ∃ newer, hist.filter (fun c2 => (c2.sha != ("") && !(posted.contains c2.sha)) &&
        isInterestingBackfill c2.message) = newer ++ [c] := by
  have hfused : backfillSelect hist posted =
      (hist.filter (fun c => (c.sha != ("") && !(posted.contains c.sha)) &&
        isInterestingBackfill c.message)).getLast? := by
    unfold backfillSelect backfillUnposted
    rw [filter_filter_fused]
  refine ⟨hfused, fun c hc => ?_⟩
  rw [hfused] at hc
  rcases getLast?_eq_append _ _ hc with ⟨t, ht⟩
  have hmem : c ∈ hist.filter (fun c2 => (c2.sha != ("") && !(posted.contains c2.sha)) &&
      isInterestingBackfill c2.message) := by
    rw [ht]
    exact List.mem_append_right _ (List.mem_singleton.mpr rfl)
  exact ⟨(List.mem_filter.mp hmem).2, ⟨t, ht⟩⟩

/-- Witness for the amended C6: with two interesting unposted entries the
older one is selected and closes the filtered window. -/
theorem backfill_selects_oldest_witness :
    backfillSelect [⟨"a", "feat: x"⟩, ⟨"b", "feat: y"⟩] [] = some ⟨"b", "feat: y"⟩ ∧
    ∃ newer, [(⟨"a", "feat: x"⟩ : Commit), ⟨"b", "feat: y"⟩].filter
        (fun c2 => (c2.sha != ("") && !(([] : List String).contains c2.sha)) &&
          isInterestingBackfill c2.message) = newer ++ [⟨"b", "feat: y"⟩] :=
  ⟨by decide,
   ((backfill_selects_oldest [⟨"a", "feat: x"⟩, ⟨"b", "feat: y"⟩] []).2
     ⟨"b", "feat: y"⟩ (by decide)).2⟩

/-! The content synthesizer `generateTweetVariations` of `src/lib/ai.ts`.
The file carries two revisions of the function (an SDK-based one and a
fetch-based one); both are embedded, in the namespaces `AiSdk` and
`AiFetch`.  A backend call `tryGenerate(modelName)` is modelled by the
environment function `tryModel`, whose `none` covers every failure mode of
the source (HTTP error, thrown SDK error, missing text, JSON parse
failure). -/

/-- The parsed JSON object a backend may return; absent keys are `none`.
The capitalised alternate keys (`data.Hook` and friends) read by the
normalisation are not modelled separately. -/
structure RawGen where
  hook : Option String := none
  value : Option String := none
  thread : Option (List String) := none
  imagePrompts : Option (List String) := none
deriving DecidableEq, Repr

/-- Environment of one `generateTweetVariations` call. -/
structure AiEnv where
  /-- Truthiness of `process.env.GEMINI_API_KEY`. -/
  apiKeyPresent : Bool
  /-- The backend response per model identifier; `none` models failure. -/
  tryModel : String → Option RawGen

/-- Result of `generateTweetVariations` together with the trace of backend
identifiers attempted, in order. -/
structure AiResult where
  options : GenOptions
  attempts : List String
  usedMock : Bool
deriving Repr

namespace AiSdk

/-- `getMockData` of the SDK revision (ai.ts lines 85-99); the single
quotes of the third thread part are omitted. -/
def getMockData (input : String) : GenOptions :=
  { hook := "🔥 This is a simulated response because the API is having trouble.\n\n\""
      ++ jsSubstrTo input 20 ++ "...\""
    value := "Here is the professional breakdown: \n• Point 1: API Key might be invalid\n• Point 2: Region might be blocked\n• Point 3: Model alias might be wrong"
    thread := ["1/3 This is a fallback thread."
      , "2/3 Your app is working, but the AI connection failed."
      , "3/3 Check your server logs for the specific 404 or Permission error."]
    imagePrompts := ["Digital network failure illustration, abstract connection breakdown, blue and orange"
      , "Broken link icon in futuristic style, neon cybernetic aesthetic"
      , "System reboot visualization, loading spinner in 3d space"] }

/-- The normalisation of a successful backend response (ai.ts lines 71-76). -/
def normalize (input : String) (d : RawGen) : GenOptions :=
  { hook := d.hook.getD ("")
    value := d.value.getD ("")
    thread := d.thread.getD []
    imagePrompts := d.imagePrompts.getD ["Minimalist illustration of " ++ input ++ " "] }

/-- `generateTweetVariations`, SDK revision (ai.ts lines 5-82): missing key
returns the canned mock data; otherwise three model identifiers are tried
in order and total failure again returns the mock data. -/
def generateTweetVariations (env : AiEnv) (input : String) : AiResult :=
  if env.apiKeyPresent = false then
    { options := getMockData input, attempts := [], usedMock := true }
  else
    match env.tryModel ("gemini-3-pro-preview") with
    | some d =>
      { options := normalize input d, attempts := ["gemini-3-pro-preview"], usedMock := false }
    | none =>
      match env.tryModel ("gemini-2.5-flash-001") with
      | some d =>
        { options := normalize input d
          attempts := ["gemini-3-pro-preview", "gemini-2.5-flash-001"], usedMock := false }
      | none =>
        match env.tryModel ("gemini-2.5-pro-001") with
        | some d =>
          { options := normalize input d
            attempts := ["gemini-3-pro-preview", "gemini-2.5-flash-001", "gemini-2.5-pro-001"]
            usedMock := false }
        | none =>
          { options := getMockData input
            attempts := ["gemini-3-pro-preview", "gemini-2.5-flash-001", "gemini-2.5-pro-001"]
            usedMock := true }

end AiSdk

namespace AiFetch

/-- `getMockData` of the fetch revision (ai.ts second revision, lines
225-236): same canned text, no image prompts. -/
def getMockData (input : String) : GenOptions :=
  { hook := "🔥 This is a simulated response because the API is having trouble.\n\n\""
      ++ jsSubstrTo input 20 ++ "...\""
    value := "Here is the professional breakdown: \n• Point 1: API Key might be invalid\n• Point 2: Region might be blocked\n• Point 3: Model alias might be wrong"
    thread := ["1/3 This is a fallback thread."
      , "2/3 Your app is working, but the AI connection failed."
      , "3/3 Check your server logs for the specific 404 or Permission error."]
    imagePrompts := [] }

/-- The `tryGenerate` of the fetch revision additionally rejects a parsed
response with no hook, no value and no thread entries (second revision,
lines 185-188). -/
def tryGenerate (env : AiEnv) (modelName : String) : Option RawGen :=
  match env.tryModel modelName with
  | none => none
  | some d =>
    if d.hook.getD ("") = ("") ∧ d.value.getD ("") = ("") ∧ d.thread.getD [] = [] then none
    else some d

/-- The normalisation of the fetch revision (lines 211-216): image prompts
are no longer produced. -/
def normalize (d : RawGen) : GenOptions :=
  { hook := d.hook.getD ("")
    value := d.value.getD ("")
    thread := d.thread.getD []
    imagePrompts := [] }

/-- `generateTweetVariations`, fetch revision (second revision, lines
104-222): missing key returns the canned mock data; two model identifiers
are tried in order and total failure again returns the mock data. -/
def generateTweetVariations (env : AiEnv) (input : String) : AiResult :=
  if env.apiKeyPresent = false then
    { options := getMockData input, attempts := [], usedMock := true }
  else
    match tryGenerate env ("gemini-2.5-flash") with
    | some d =>
      { options := normalize d, attempts := ["gemini-2.5-flash"], usedMock := false }
    | none =>
      match tryGenerate env ("gemini-2.0-flash") with
      | some d =>
        { options := normalize d
          attempts := ["gemini-2.5-flash", "gemini-2.0-flash"], usedMock := false }
      | none =>
        { options := getMockData input
          attempts := ["gemini-2.5-flash", "gemini-2.0-flash"], usedMock := true }

end AiFetch

/-! Claim C9: the synthesizer fallback chain. -/

/-- C9: in both revisions of `generateTweetVariations`, a failing primary
backend is silently followed by an attempt on a secondary backend
identifier; a missing API key or total failure of every backend yields the
fixed canned mock data — whose thread has exactly three parts — instead of
a failure value, and the function is total, so every non-throwing call
returns a result object. -/
theorem generateTweetVariations_fallback (env : AiEnv) (input : String) :
    (env.apiKeyPresent = false →
      (AiSdk.generateTweetVariations env input).options = AiSdk.getMockData input ∧
      (AiFetch.generateTweetVariations env input).options = AiFetch.getMockData input) ∧
    (env.apiKeyPresent = true → env.tryModel ("gemini-3-pro-preview") = none →
      ("gemini-2.5-flash-001") ∈ (AiSdk.generateTweetVariations env input).attempts) ∧
    (env.apiKeyPresent = true → AiFetch.tryGenerate env ("gemini-2.5-flash") = none →
      ("gemini-2.0-flash") ∈ (AiFetch.generateTweetVariations env input).attempts) ∧
    ((∀ m, env.tryModel m = none) →
      (AiSdk.generateTweetVariations env input).options = AiSdk.getMockData input ∧
      (AiFetch.generateTweetVariations env input).options = AiFetch.getMockData input) ∧
    (AiSdk.getMockData input).thread.length = 3 ∧
    (AiFetch.getMockData input).thread.length = 3 := by
  refine ⟨fun hk => ?_, fun hk h1 => ?_, fun hk h1 => ?_, fun hall => ?_, rfl, rfl⟩
  · unfold AiSdk.generateTweetVariations AiFetch.generateTweetVariations
    rw [if_pos hk, if_pos hk]
    exact ⟨rfl, rfl⟩
  · unfold AiSdk.generateTweetVariations
    rw [if_neg (by rw [hk]; decide), h1]
    cases h2 : env.tryModel ("gemini-2.5-flash-001") <;>
      cases h3 : env.tryModel ("gemini-2.5-pro-001") <;> simp
  · unfold AiFetch.generateTweetVariations
    rw [if_neg (by rw [hk]; decide), h1]
    cases h2 : AiFetch.tryGenerate env ("gemini-2.0-flash") <;> simp
  · cases hk : env.apiKeyPresent
    · unfold AiSdk.generateTweetVariations AiFetch.generateTweetVariations
      rw [if_pos hk, if_pos hk]
      exact ⟨rfl, rfl⟩
    · have htg : ∀ m, AiFetch.tryGenerate env m = none := by
        intro m
        unfold AiFetch.tryGenerate
        rw [hall m]
      unfold AiSdk.generateTweetVariations AiFetch.generateTweetVariations
      rw [if_neg (by rw [hk]; decide),
        if_neg (by rw [hk]; decide),
        hall ("gemini-3-pro-preview"), hall ("gemini-2.5-flash-001"),
        hall ("gemini-2.5-pro-001"), htg ("gemini-2.5-flash"), htg ("gemini-2.0-flash")]
      exact ⟨rfl, rfl⟩

/-- Environment for the C9 witness: key present, every backend fails. -/
def c9Env : AiEnv :=
  { apiKeyPresent := true
    tryModel := fun _ => none }

/-- Witness for C9: with every backend failing, the secondary identifiers
are attempted and both revisions fall back to the canned mock data. -/
theorem generateTweetVariations_fallback_witness :
    ("gemini-2.5-flash-001") ∈ (AiSdk.generateTweetVariations c9Env ("brief")).attempts ∧
    ("gemini-2.0-flash") ∈ (AiFetch.generateTweetVariations c9Env ("brief")).attempts ∧
    (AiSdk.generateTweetVariations c9Env ("brief")).options = AiSdk.getMockData ("brief") ∧
    (AiFetch.generateTweetVariations c9Env ("brief")).options = AiFetch.getMockData ("brief") :=
  ⟨(generateTweetVariations_fallback c9Env ("brief")).2.1 rfl rfl,
   (generateTweetVariations_fallback c9Env ("brief")).2.2.1 rfl (by decide),
   ((generateTweetVariations_fallback c9Env ("brief")).2.2.2.1 (fun _ => rfl)).1,
   ((generateTweetVariations_fallback c9Env ("brief")).2.2.2.1 (fun _ => rfl)).2⟩

/-! Claim C10: totality of `getAutoPilotState` and the inactive first tick. -/

/-- C10: a missing, unreadable or unparseable state file yields the default
state — inactive, empty marker, zero quota, empty quota date, empty posted
set — and a tick from that state fails with reason inactive, publishes
nothing, writes nothing, and is the same for every environment, so no
collaborator is consulted. -/
theorem getAutoPilotState_total_inactive :
    getAutoPilotState none = defaultAutoPilotState ∧
    defaultAutoPilotState.isActive = false ∧
    defaultAutoPilotState.lastCommitHash = ("") ∧
    defaultAutoPilotState.postsToday = 0 ∧
    defaultAutoPilotState.lastPostDate = ("") ∧
    defaultAutoPilotState.postedCommits = some [] ∧
    ∀ (env env2 : TickEnv),
      checkAndRunAutoPilot env defaultAutoPilotState =
        { success := false, reason := some ("inactive") } ∧
      (checkAndRunAutoPilot env defaultAutoPilotState).posted = false ∧
      (checkAndRunAutoPilot env defaultAutoPilotState).saved = none ∧
      checkAndRunAutoPilot env defaultAutoPilotState =
        checkAndRunAutoPilot env2 defaultAutoPilotState :=
  ⟨rfl, rfl, rfl, rfl, rfl, rfl, fun _ _ => ⟨rfl, rfl, rfl, rfl⟩⟩

end GhostTrifid
